import Mathlib

/-!
Shallow embedding of `include/openai/openai.hpp` (single-header OpenAI C++
client).  Pure data flow is translated directly; the curl transport and the
nlohmann JSON parser are external to the repository and are modelled as
explicit inputs (`CurlOutcome`, a `parse` function).  Raising an exception is
modelled with `Except`; text written to `std::cerr` is collected in a
`diagnostics` list.
-/

/-- Modelled from the spec: `nlohmann::json` (`json.hpp`) is included by the
header but is not part of this repository.  The spec only needs structured
JSON values with object fields (`count`/`operator[]` on a key) and a textual
`dump`; we model values as null, objects, or opaque leaves. -/
inductive Json where
  | null : Json
  | obj  : List (String × Json) → Json
  | val  : String → Json
deriving Repr

/-- `json.count(key)` of nlohmann: number of fields named `key` (0 on
non-objects). -/
def Json.count (j : Json) (key : String) : Nat :=
  match j with
  | .obj fs => (fs.filter (fun p => p.1 = key)).length
  | _ => 0

/-- `json[key]` of nlohmann on a read: the first field named `key`, null when
absent or not an object. -/
def Json.getField (j : Json) (key : String) : Json :=
  match j with
  | .obj fs =>
    match fs.find? (fun p => p.1 = key) with
    | some p => p.2
    | none => .null
  | _ => .null

mutual

/-- Modelled from the spec: nlohmann `dump` serialization (textual form of a
structured value).  The exact text never matters to the claims. -/
def Json.dump : Json → String
  | .null => "null"
  | .val s => s
  | .obj fs => "\x7b" ++ Json.dumpFields fs ++ "\x7d"

def Json.dumpFields : List (String × Json) → String
  | [] => ""
  | (k, v) :: rest => "\x22" ++ k ++ "\x22:" ++ Json.dump v ++ "," ++ Json.dumpFields rest

end

/-- `_detail::Response`: raw text plus the transport-level error channel. -/
structure Response where
  text          : String
  is_error      : Bool
  error_message : String
deriving Repr

/-- Outcome of the external `curl_easy_perform` call: whether it returned
`CURLE_OK`, the bytes it wrote through the write callback, and
`curl_easy_strerror(res_)` for the failure case. -/
structure CurlOutcome where
  ok            : Bool
  response_text : String
  strerror      : String
deriving Repr

/-- `_detail::Session`: the configuration state the curl handle carries when
`makeRequest` runs.  `body_` models the `CURLOPT_POSTFIELDS` option set by
`setBody`; the other fields are the members of the C++ class. -/
structure Session where
  url_             : String
  proxy_url_       : String
  body_            : String
  token_           : String
  organization_    : String
  throw_exception_ : Bool
deriving Repr

/-- `Session::Session(bool throw_exception)`. -/
def Session.construct (throw_exception : Bool) : Session :=
  { url_ := "", proxy_url_ := "", body_ := "", token_ := "", organization_ := "",
    throw_exception_ := throw_exception }

/-- `Session::setUrl`. -/
def Session.setUrl (s : Session) (url : String) : Session := { s with url_ := url }

/-- `Session::setToken`. -/
def Session.setToken (s : Session) (token organization : String) : Session :=
  { s with token_ := token, organization_ := organization }

/-- `Session::setProxyUrl`. -/
def Session.setProxyUrl (s : Session) (url : String) : Session :=
  { s with proxy_url_ := url }

/-- `Session::setBody`. -/
def Session.setBody (s : Session) (data : String) : Session := { s with body_ := data }

/-- The HTTP request handed to the transport by `makeRequest`: the
`CURLOPT_URL`, the `curl_slist` of headers, and the body. -/
structure HttpRequest where
  url     : String
  headers : List String
  body    : String
deriving Repr

/-- Observable result of `Session::makeRequest`: the request it issued, the
returned `Response` or the exception it threw, and what it wrote to
`std::cerr`. -/
structure MakeResult where
  request     : HttpRequest
  outcome     : Except String Response
  diagnostics : List String
deriving Repr

/-- `Session::makeRequest`: build the header list (`Content-Type`,
`Authorization: Bearer`, and `OpenAI-Organization` when the organization is
non-empty), perform the transfer, and on failure either throw or print,
according to the session flag fixed at construction. -/
def Session.makeRequest (s : Session) (out : CurlOutcome) : MakeResult :=
  let headers := ["Content-Type: application/json"]
  let headers := headers ++ ["Authorization: Bearer " ++ s.token_]
  let headers := if s.organization_ = "" then headers
                 else headers ++ ["OpenAI-Organization: " ++ s.organization_]
  let req : HttpRequest := { url := s.url_, headers := headers, body := s.body_ }
  if out.ok then
    { request := req,
      outcome := .ok { text := out.response_text, is_error := false, error_message := "" },
      diagnostics := [] }
  else
    let error_msg := "curl_easy_perform() failed " ++ out.strerror
    if s.throw_exception_ then
      { request := req, outcome := .error error_msg, diagnostics := [] }
    else
      { request := req,
        outcome := .ok { text := out.response_text, is_error := true,
                         error_message := error_msg },
        diagnostics := ["[OpenAI] curl_easy_perform() failed " ++ error_msg] }

/-- `Session::get` (the extra curl verb options do not change the observable
result of `makeRequest`). -/
def Session.get (s : Session) (out : CurlOutcome) : MakeResult := s.makeRequest out

/-- `Session::post`. -/
def Session.post (s : Session) (out : CurlOutcome) : MakeResult := s.makeRequest out

/-- `_detail::OpenAI`: the facade.  Category wrapper members only hold a
back-reference, so they carry no state of their own. -/
structure OpenAI where
  session_         : Session
  token_           : String
  organization_    : String
  throw_exception_ : Bool
  base_url         : String
deriving Repr

/-- The `OpenAI(token, organization = "", throw_exception = true)`
constructor: builds the session with the same flag, then sets the default
URL and the credentials on it. -/
def OpenAI.construct (token : String) (organization : String := "")
    (throw_exception : Bool := true) : OpenAI :=
  let s := Session.construct throw_exception
  let s := s.setUrl "https://api.openai.com/v1/"
  let s := s.setToken token organization
  { session_ := s, token_ := token, organization_ := organization,
    throw_exception_ := throw_exception,
    base_url := "https://api.openai.com/v1/" }

/-- `OpenAI::set_throw_exception`: mutates only the facade flag; the session
keeps the flag it was constructed with. -/
def OpenAI.set_throw_exception (o : OpenAI) (throw_exception : Bool) : OpenAI :=
  { o with throw_exception_ := throw_exception }

/-- `OpenAI::setParameters`: `complete_url = base_url + suffix`, pushed into
the session together with the body. -/
def OpenAI.setParameters (o : OpenAI) (suffix : String) (data : String := "") : OpenAI :=
  { o with session_ := (o.session_.setUrl (o.base_url ++ suffix)).setBody data }

/-- `OpenAI::trigger_error`: throw or print according to the facade flag. -/
def OpenAI.trigger_error (o : OpenAI) (msg : String) : Except String (List String) :=
  if o.throw_exception_ then .error msg
  else .ok ["[OpenAI] error. Reason: " ++ msg]

/-- `OpenAI::checkResponse`: a parsed payload with an `error` field routes its
dump through `trigger_error`. -/
def OpenAI.checkResponse (o : OpenAI) (json : Json) : Except String (List String) :=
  if json.count "error" ≠ 0 then o.trigger_error ((json.getField "error").dump)
  else .ok []

/-- `OpenAI::isJson`: `Json::parse` throws exactly when the text is not valid
JSON, so with parsing modelled as `parse : String → Option Json` this is
success of the parse. -/
def OpenAI.isJson (parse : String → Option Json) (data : String) : Bool :=
  (parse data).isSome

/-- Observable result of one facade `get`/`post` call: the request issued,
the returned `Json` or the exception thrown, everything printed to
`std::cerr`, and the facade state after the call. -/
structure CallOutput where
  request     : HttpRequest
  outcome     : Except String Json
  diagnostics : List String
  state       : OpenAI
deriving Repr

/-- `true` exactly when the call raised an exception to the caller. -/
def CallOutput.raised (c : CallOutput) : Bool :=
  match c.outcome with
  | .error _ => true
  | .ok _ => false

/-- `OpenAI::post(suffix, data)`: set URL and body, run the session, route a
transport error through `trigger_error`, then parse; valid JSON is checked
for an `error` field and returned, anything else yields the default-constructed
(null) `Json`. -/
def OpenAI.post (o : OpenAI) (suffix : String) (data : String)
    (parse : String → Option Json) (out : CurlOutcome) : CallOutput :=
  let o1 := o.setParameters suffix data
  let mk := o1.session_.post out
  match mk.outcome with
  | .error msg => { request := mk.request, outcome := .error msg,
                    diagnostics := mk.diagnostics, state := o1 }
  | .ok response =>
    match (if response.is_error then o1.trigger_error response.error_message
           else Except.ok []) with
    | .error msg => { request := mk.request, outcome := .error msg,
                      diagnostics := mk.diagnostics, state := o1 }
    | .ok d2 =>
      match parse response.text with
      | none => { request := mk.request, outcome := .ok Json.null,
                  diagnostics := mk.diagnostics ++ d2, state := o1 }
      | some json =>
        match o1.checkResponse json with
        | .error msg => { request := mk.request, outcome := .error msg,
                          diagnostics := mk.diagnostics ++ d2, state := o1 }
        | .ok d3 => { request := mk.request, outcome := .ok json,
                      diagnostics := mk.diagnostics ++ d2 ++ d3, state := o1 }

/-- `OpenAI::get(suffix, data)`: identical pipeline through `Session::get`. -/
def OpenAI.get (o : OpenAI) (suffix : String) (data : String)
    (parse : String → Option Json) (out : CurlOutcome) : CallOutput :=
  let o1 := o.setParameters suffix data
  let mk := o1.session_.get out
  match mk.outcome with
  | .error msg => { request := mk.request, outcome := .error msg,
                    diagnostics := mk.diagnostics, state := o1 }
  | .ok response =>
    match (if response.is_error then o1.trigger_error response.error_message
           else Except.ok []) with
    | .error msg => { request := mk.request, outcome := .error msg,
                      diagnostics := mk.diagnostics, state := o1 }
    | .ok d2 =>
      match parse response.text with
      | none => { request := mk.request, outcome := .ok Json.null,
                  diagnostics := mk.diagnostics ++ d2, state := o1 }
      | some json =>
        match o1.checkResponse json with
        | .error msg => { request := mk.request, outcome := .error msg,
                          diagnostics := mk.diagnostics ++ d2, state := o1 }
        | .ok d3 => { request := mk.request, outcome := .ok json,
                      diagnostics := mk.diagnostics ++ d2 ++ d3, state := o1 }

/-- `OpenAI::post(suffix, const Json&)`: serializes the structured body. -/
def OpenAI.postJson (o : OpenAI) (suffix : String) (json : Json)
    (parse : String → Option Json) (out : CurlOutcome) : CallOutput :=
  o.post suffix json.dump parse out

/-- `CategoryModel::list` — `GET models`. -/
def CategoryModel.list (o : OpenAI) (parse : String → Option Json)
    (out : CurlOutcome) : CallOutput :=
  o.get "models" "" parse out

/-- `CategoryModel::retrieve` — `GET models/{model}`. -/
def CategoryModel.retrieve (o : OpenAI) (model : String)
    (parse : String → Option Json) (out : CurlOutcome) : CallOutput :=
  o.get ("models/" ++ model) "" parse out

/-- `CategoryCompletion::create` — `POST completions`. -/
def CategoryCompletion.create (o : OpenAI) (input : Json)
    (parse : String → Option Json) (out : CurlOutcome) : CallOutput :=
  o.postJson "completions" input parse out

/-- `CategoryEdit::create` — `POST edits`. -/
def CategoryEdit.create (o : OpenAI) (input : Json)
    (parse : String → Option Json) (out : CurlOutcome) : CallOutput :=
  o.postJson "edits" input parse out

/-- `CategoryImage::create` — `POST images/generations`. -/
def CategoryImage.create (o : OpenAI) (input : Json)
    (parse : String → Option Json) (out : CurlOutcome) : CallOutput :=
  o.postJson "images/generations" input parse out

/-- `CategoryImage::edit` — `POST images/edits`. -/
def CategoryImage.edit (o : OpenAI) (input : Json)
    (parse : String → Option Json) (out : CurlOutcome) : CallOutput :=
  o.postJson "images/edits" input parse out

/-- `CategoryImage::variation` — `POST images/variations`. -/
def CategoryImage.variation (o : OpenAI) (input : Json)
    (parse : String → Option Json) (out : CurlOutcome) : CallOutput :=
  o.postJson "images/variations" input parse out

/-- `CategoryEmbedding::create` — `POST embeddings`. -/
def CategoryEmbedding.create (o : OpenAI) (input : Json)
    (parse : String → Option Json) (out : CurlOutcome) : CallOutput :=
  o.postJson "embeddings" input parse out

/-- `CategoryFile::list` — `GET files`. -/
def CategoryFile.list (o : OpenAI) (parse : String → Option Json)
    (out : CurlOutcome) : CallOutput :=
  o.get "files" "" parse out

/-- `CategoryFile::upload` — `POST files`. -/
def CategoryFile.upload (o : OpenAI) (input : Json)
    (parse : String → Option Json) (out : CurlOutcome) : CallOutput :=
  o.postJson "files" input parse out

/-- `CategoryFile::retrieve` — `GET files/{file_id}`. -/
def CategoryFile.retrieve (o : OpenAI) (file_id : String)
    (parse : String → Option Json) (out : CurlOutcome) : CallOutput :=
  o.get ("files/" ++ file_id) "" parse out

/-- `CategoryFile::content` — `GET files/{file_id}/content`. -/
def CategoryFile.content (o : OpenAI) (file_id : String)
    (parse : String → Option Json) (out : CurlOutcome) : CallOutput :=
  o.get ("files/" ++ file_id ++ "/content") "" parse out

/-- `CategoryFineTune::create` — `POST fine-tunes`. -/
def CategoryFineTune.create (o : OpenAI) (input : Json)
    (parse : String → Option Json) (out : CurlOutcome) : CallOutput :=
  o.postJson "fine-tunes" input parse out

/-- `CategoryFineTune::list` — `GET fine-tunes`. -/
def CategoryFineTune.list (o : OpenAI) (parse : String → Option Json)
    (out : CurlOutcome) : CallOutput :=
  o.get "fine-tunes" "" parse out

/-- `CategoryFineTune::retrieve` — `GET fine-tunes/{id}`. -/
def CategoryFineTune.retrieve (o : OpenAI) (fine_tune_id : String)
    (parse : String → Option Json) (out : CurlOutcome) : CallOutput :=
  o.get ("fine-tunes/" ++ fine_tune_id) "" parse out

/-- `CategoryFineTune::content` — `GET fine-tunes/{id}/content`. -/
def CategoryFineTune.content (o : OpenAI) (fine_tune_id : String)
    (parse : String → Option Json) (out : CurlOutcome) : CallOutput :=
  o.get ("fine-tunes/" ++ fine_tune_id ++ "/content") "" parse out

/-- `CategoryFineTune::cancel` — `GET fine-tunes/{id}/cancel`. -/
def CategoryFineTune.cancel (o : OpenAI) (fine_tune_id : String)
    (parse : String → Option Json) (out : CurlOutcome) : CallOutput :=
  o.get ("fine-tunes/" ++ fine_tune_id ++ "/cancel") "" parse out

/-- `CategoryFineTune::events` — `GET fine-tunes/{id}/events`. -/
def CategoryFineTune.events (o : OpenAI) (fine_tune_id : String)
    (parse : String → Option Json) (out : CurlOutcome) : CallOutput :=
  o.get ("fine-tunes/" ++ fine_tune_id ++ "/events") "" parse out

/-- `CategoryModeration::create` — `POST moderations`. -/
def CategoryModeration.create (o : OpenAI) (input : Json)
    (parse : String → Option Json) (out : CurlOutcome) : CallOutput :=
  o.postJson "moderations" input parse out

/-- Enumeration of every supported operation of every category wrapper,
carrying the path parameter or body where the method takes one. -/
inductive Op where
  | modelList
  | modelRetrieve (model : String)
  | completionCreate (input : Json)
  | editCreate (input : Json)
  | imageCreate (input : Json)
  | imageEdit (input : Json)
  | imageVariation (input : Json)
  | embeddingCreate (input : Json)
  | fileList
  | fileUpload (input : Json)
  | fileRetrieve (file_id : String)
  | fileContent (file_id : String)
  | fineTuneCreate (input : Json)
  | fineTuneList
  | fineTuneRetrieve (fine_tune_id : String)
  | fineTuneContent (fine_tune_id : String)
  | fineTuneCancel (fine_tune_id : String)
  | fineTuneEvents (fine_tune_id : String)
  | moderationCreate (input : Json)

/-- Dispatch an operation to the category-wrapper method that implements it. -/
def Op.call (op : Op) (o : OpenAI) (parse : String → Option Json)
    (out : CurlOutcome) : CallOutput :=
  match op with
  | .modelList => CategoryModel.list o parse out
  | .modelRetrieve m => CategoryModel.retrieve o m parse out
  | .completionCreate input => CategoryCompletion.create o input parse out
  | .editCreate input => CategoryEdit.create o input parse out
  | .imageCreate input => CategoryImage.create o input parse out
  | .imageEdit input => CategoryImage.edit o input parse out
  | .imageVariation input => CategoryImage.variation o input parse out
  | .embeddingCreate input => CategoryEmbedding.create o input parse out
  | .fileList => CategoryFile.list o parse out
  | .fileUpload input => CategoryFile.upload o input parse out
  | .fileRetrieve i => CategoryFile.retrieve o i parse out
  | .fileContent i => CategoryFile.content o i parse out
  | .fineTuneCreate input => CategoryFineTune.create o input parse out
  | .fineTuneList => CategoryFineTune.list o parse out
  | .fineTuneRetrieve i => CategoryFineTune.retrieve o i parse out
  | .fineTuneContent i => CategoryFineTune.content o i parse out
  | .fineTuneCancel i => CategoryFineTune.cancel o i parse out
  | .fineTuneEvents i => CategoryFineTune.events o i parse out
  | .moderationCreate input => CategoryModeration.create o input parse out

/-- The fixed URL suffix of each operation, written down from the spec list
(`models`, `models/{id}`, `completions`, `edits`, `images/generations`,
`images/edits`, `images/variations`, `embeddings`, `files`, `files/{id}`,
`files/{id}/content`, `fine-tunes`, `fine-tunes/{id}`,
`fine-tunes/{id}/content`, `fine-tunes/{id}/cancel`, `fine-tunes/{id}/events`,
`moderations`), for comparison against the URL the code hands to the
session. -/
def Op.specSuffix : Op → String
  | .modelList => "models"
  | .modelRetrieve m => "models/" ++ m
  | .completionCreate _ => "completions"
  | .editCreate _ => "edits"
  | .imageCreate _ => "images/generations"
  | .imageEdit _ => "images/edits"
  | .imageVariation _ => "images/variations"
  | .embeddingCreate _ => "embeddings"
  | .fileList => "files"
  | .fileUpload _ => "files"
  | .fileRetrieve i => "files/" ++ i
  | .fileContent i => "files/" ++ i ++ "/content"
  | .fineTuneCreate _ => "fine-tunes"
  | .fineTuneList => "fine-tunes"
  | .fineTuneRetrieve i => "fine-tunes/" ++ i
  | .fineTuneContent i => "fine-tunes/" ++ i ++ "/content"
  | .fineTuneCancel i => "fine-tunes/" ++ i ++ "/cancel"
  | .fineTuneEvents i => "fine-tunes/" ++ i ++ "/events"
  | .moderationCreate _ => "moderations"

/-- `openai::_detail::configure`: the function-local `static OpenAI instance`
is modelled by threading its storage (`Option OpenAI`) explicitly.  The
constructor arguments are used only when the storage is still empty;
afterwards every call returns the existing instance untouched. -/
def configure (storage : Option OpenAI) (token : String)
    (organization : String := "") (throw_exception : Bool := true) :
    OpenAI × Option OpenAI :=
  match storage with
  | some inst => (inst, some inst)
  | none =>
    let inst := OpenAI.construct token organization throw_exception
    (inst, some inst)

/-- `openai::_detail::instance`: `configure("")` with the defaults. -/
def instanceAccessor (storage : Option OpenAI) : OpenAI × Option OpenAI :=
  configure storage ""

/-! Helper lemmas about the request pipeline. -/

theorem Session.makeRequest_request (s : Session) (out : CurlOutcome) :
    (s.makeRequest out).request =
      { url := s.url_,
        headers := "Content-Type: application/json" ::
          ("Authorization: Bearer " ++ s.token_) ::
          (if s.organization_ = "" then []
           else ["OpenAI-Organization: " ++ s.organization_]),
        body := s.body_ } := by
  unfold Session.makeRequest
  by_cases h : out.ok <;> by_cases h2 : s.organization_ = "" <;>
    by_cases h3 : s.throw_exception_ <;> simp [h, h2, h3]

theorem OpenAI.post_request (o : OpenAI) (suffix data : String)
    (parse : String → Option Json) (out : CurlOutcome) :
    (o.post suffix data parse out).request =
      (((o.setParameters suffix data).session_).makeRequest out).request := by
  simp only [OpenAI.post, Session.post]
  repeat' split
  all_goals rfl

theorem OpenAI.post_request_url (o : OpenAI) (suffix data : String)
    (parse : String → Option Json) (out : CurlOutcome) :
    (o.post suffix data parse out).request.url = o.base_url ++ suffix := by
  rw [OpenAI.post_request, Session.makeRequest_request]
  simp [OpenAI.setParameters, Session.setUrl, Session.setBody]

theorem OpenAI.get_request_url (o : OpenAI) (suffix data : String)
    (parse : String → Option Json) (out : CurlOutcome) :
    (o.get suffix data parse out).request.url = o.base_url ++ suffix := by
  have h : o.get suffix data parse out = o.post suffix data parse out := rfl
  rw [h, OpenAI.post_request_url]

theorem OpenAI.post_state (o : OpenAI) (suffix data : String)
    (parse : String → Option Json) (out : CurlOutcome) :
    (o.post suffix data parse out).state = o.setParameters suffix data := by
  simp only [OpenAI.post, Session.post]
  repeat' split
  all_goals rfl

theorem OpenAI.post_ok_not_json (o : OpenAI) (suffix data : String)
    (parse : String → Option Json) (out : CurlOutcome)
    (hok : out.ok = true) (hp : parse out.response_text = none) :
    (o.post suffix data parse out).outcome = .ok Json.null ∧
    (o.post suffix data parse out).diagnostics = [] := by
  simp [OpenAI.post, Session.post, Session.makeRequest, hok, hp]

theorem OpenAI.post_ok_json_error (o : OpenAI) (suffix data : String)
    (parse : String → Option Json) (out : CurlOutcome) (j : Json)
    (hok : out.ok = true) (hp : parse out.response_text = some j)
    (he : j.count "error" ≠ 0) :
    (o.post suffix data parse out).outcome =
      (if o.throw_exception_ then .error ((j.getField "error").dump) else .ok j) ∧
    (o.post suffix data parse out).diagnostics =
      (if o.throw_exception_ then []
       else ["[OpenAI] error. Reason: " ++ (j.getField "error").dump]) := by
  by_cases hb : o.throw_exception_ <;>
    simp [OpenAI.post, Session.post, Session.makeRequest, hok, hp, he, hb,
      OpenAI.checkResponse, OpenAI.trigger_error, OpenAI.setParameters]

theorem OpenAI.post_ok_json_no_error (o : OpenAI) (suffix data : String)
    (parse : String → Option Json) (out : CurlOutcome) (j : Json)
    (hok : out.ok = true) (hp : parse out.response_text = some j)
    (he : j.count "error" = 0) :
    (o.post suffix data parse out).outcome = .ok j ∧
    (o.post suffix data parse out).diagnostics = [] := by
  simp [OpenAI.post, Session.post, Session.makeRequest, hok, hp, he,
    OpenAI.checkResponse, OpenAI.setParameters]

theorem OpenAI.post_transport_error_hard_session (o : OpenAI) (suffix data : String)
    (parse : String → Option Json) (out : CurlOutcome)
    (hko : out.ok = false) (hs : o.session_.throw_exception_ = true) :
    (o.post suffix data parse out).outcome =
      .error ("curl_easy_perform() failed " ++ out.strerror) ∧
    (o.post suffix data parse out).diagnostics = [] := by
  simp [OpenAI.post, Session.post, Session.makeRequest, hko, hs,
    OpenAI.setParameters, Session.setUrl, Session.setBody]

theorem OpenAI.post_transport_error_soft_hard (o : OpenAI) (suffix data : String)
    (parse : String → Option Json) (out : CurlOutcome)
    (hko : out.ok = false) (hs : o.session_.throw_exception_ = false)
    (hb : o.throw_exception_ = true) :
    (o.post suffix data parse out).outcome =
      .error ("curl_easy_perform() failed " ++ out.strerror) ∧
    (o.post suffix data parse out).diagnostics =
      ["[OpenAI] curl_easy_perform() failed " ++
        ("curl_easy_perform() failed " ++ out.strerror)] := by
  simp [OpenAI.post, Session.post, Session.makeRequest, hko, hs, hb,
    OpenAI.trigger_error, OpenAI.setParameters, Session.setUrl, Session.setBody]

theorem OpenAI.post_transport_error_soft_soft (o : OpenAI) (suffix data : String)
    (parse : String → Option Json) (out : CurlOutcome)
    (hko : out.ok = false) (hs : o.session_.throw_exception_ = false)
    (hb : o.throw_exception_ = false) :
    (o.post suffix data parse out).raised = false ∧
    ("[OpenAI] curl_easy_perform() failed " ++
      ("curl_easy_perform() failed " ++ out.strerror)) ∈
      (o.post suffix data parse out).diagnostics := by
  rcases hp : parse out.response_text with _ | j
  · simp [OpenAI.post, Session.post, Session.makeRequest, hko, hs, hb, hp,
      OpenAI.trigger_error, OpenAI.setParameters, Session.setUrl, Session.setBody,
      CallOutput.raised]
  · by_cases he : j.count "error" = 0 <;>
      simp [OpenAI.post, Session.post, Session.makeRequest, hko, hs, hb, hp, he,
        OpenAI.checkResponse, OpenAI.trigger_error, OpenAI.setParameters,
        Session.setUrl, Session.setBody, CallOutput.raised]

theorem CallOutput.raised_of_error (c : CallOutput) (m : String)
    (h : c.outcome = .error m) : c.raised = true := by
  simp [CallOutput.raised, h]

theorem CallOutput.not_raised_of_ok (c : CallOutput) (j : Json)
    (h : c.outcome = .ok j) : c.raised = false := by
  simp [CallOutput.raised, h]

/-! Claim theorems. -/

/-- Claim C3: for every supported operation of every category wrapper, the
request URL handed to the transport session equals `base_url` concatenated
with that operation's fixed suffix (plus the path parameter for the
operations that take one), exactly and with nothing else. -/
theorem claim_C3 (op : Op) (o : OpenAI) (parse : String → Option Json)
    (out : CurlOutcome) :
    (op.call o parse out).request.url = o.base_url ++ op.specSuffix := by
  cases op <;>
    simp [Op.call, Op.specSuffix, CategoryModel.list, CategoryModel.retrieve,
      CategoryCompletion.create, CategoryEdit.create, CategoryImage.create,
      CategoryImage.edit, CategoryImage.variation, CategoryEmbedding.create,
      CategoryFile.list, CategoryFile.upload, CategoryFile.retrieve,
      CategoryFile.content, CategoryFineTune.create, CategoryFineTune.list,
      CategoryFineTune.retrieve, CategoryFineTune.content, CategoryFineTune.cancel,
      CategoryFineTune.events, CategoryModeration.create, OpenAI.postJson,
      OpenAI.get_request_url, OpenAI.post_request_url]

/-- Claim C6: every request issued by a session carries the
`Content-Type: application/json` and `Authorization: Bearer <token>` headers,
carries `OpenAI-Organization: <org>` exactly when the organization value is
non-empty, and carries nothing else. -/
theorem claim_C6 (s : Session) (out : CurlOutcome) :
    (s.makeRequest out).request.headers =
      "Content-Type: application/json" ::
        ("Authorization: Bearer " ++ s.token_) ::
        (if s.organization_ = "" then []
         else ["OpenAI-Organization: " ++ s.organization_]) := by
  rw [Session.makeRequest_request]

/-- Claim C7: the singleton accessor `configure`, called twice with different
tokens, returns the same facade instance both times, the instance reflects
only the first token, and the second call ignores its token, organization and
error-mode arguments. -/
theorem claim_C7 (t1 org1 t2 org2 : String) (b1 b2 : Bool) (hne : t1 ≠ t2) :
    (configure ((configure none t1 org1 b1).2) t2 org2 b2).1 =
      (configure none t1 org1 b1).1 ∧
    (configure ((configure none t1 org1 b1).2) t2 org2 b2).2 =
      (configure none t1 org1 b1).2 ∧
    (configure none t1 org1 b1).1.token_ = t1 ∧
    (configure ((configure none t1 org1 b1).2) t2 org2 b2).1.token_ = t1 ∧
    (configure ((configure none t1 org1 b1).2) t2 org2 b2).1.organization_ = org1 ∧
    (configure ((configure none t1 org1 b1).2) t2 org2 b2).1.throw_exception_ = b1 := by
  exact ⟨rfl, rfl, rfl, rfl, rfl, rfl⟩

/-- Closed witness for C7 at tokens `first` and `second`. -/
theorem claim_C7_witness :
    ("first" ≠ ("second" : String)) ∧
    ((configure ((configure none "first" "org" true).2) "second" "other" false).1 =
       (configure none "first" "org" true).1 ∧
     (configure ((configure none "first" "org" true).2) "second" "other" false).2 =
       (configure none "first" "org" true).2 ∧
     (configure none "first" "org" true).1.token_ = "first" ∧
     (configure ((configure none "first" "org" true).2) "second" "other" false).1.token_ = "first" ∧
     (configure ((configure none "first" "org" true).2) "second" "other" false).1.organization_ = "org" ∧
     (configure ((configure none "first" "org" true).2) "second" "other" false).1.throw_exception_ = true) :=
  ⟨by decide, claim_C7 "first" "org" "second" "other" true false (by decide)⟩

/-- Claim C10: `instance()` called on an empty singleton storage constructs
the facade with empty token, empty organization and throw-exception mode on,
and a later `configure` with a real token returns that empty-token instance
and storage unchanged. -/
theorem claim_C10 (t org : String) (b : Bool) :
    (instanceAccessor none).1.token_ = "" ∧
    (instanceAccessor none).1.organization_ = "" ∧
    (instanceAccessor none).1.throw_exception_ = true ∧
    (instanceAccessor none).1.session_.throw_exception_ = true ∧
    configure (instanceAccessor none).2 t org b =
      ((instanceAccessor none).1, (instanceAccessor none).2) := by
  exact ⟨rfl, rfl, rfl, rfl, rfl⟩

/-- Claim C1: for a facade whose error-mode is uniform (the session flag and
the facade flag agree, as they do at construction), a transport error makes
`get` and `post` raise under hard mode, while under soft mode they return
without raising and a diagnostic is observable on `std::cerr`. -/
theorem claim_C1 (o : OpenAI) (suffix data : String)
    (parse : String → Option Json) (out : CurlOutcome)
    (hmode : o.session_.throw_exception_ = o.throw_exception_)
    (hko : out.ok = false) :
    (o.throw_exception_ = true →
      (o.post suffix data parse out).raised = true ∧
      (o.get suffix data parse out).raised = true) ∧
    (o.throw_exception_ = false →
      (o.post suffix data parse out).raised = false ∧
      (o.post suffix data parse out).diagnostics ≠ [] ∧
      (o.get suffix data parse out).raised = false ∧
      (o.get suffix data parse out).diagnostics ≠ []) := by
  have hg : o.get suffix data parse out = o.post suffix data parse out := rfl
  constructor
  · intro hb
    have hs : o.session_.throw_exception_ = true := hmode.trans hb
    have h := OpenAI.post_transport_error_hard_session o suffix data parse out hko hs
    rw [hg]
    exact ⟨CallOutput.raised_of_error _ _ h.1, CallOutput.raised_of_error _ _ h.1⟩
  · intro hb
    have hs : o.session_.throw_exception_ = false := hmode.trans hb
    have h := OpenAI.post_transport_error_soft_soft o suffix data parse out hko hs hb
    have hne : (o.post suffix data parse out).diagnostics ≠ [] :=
      List.ne_nil_of_mem h.2
    rw [hg]
    exact ⟨h.1, hne, h.1, hne⟩

/-- Closed witness for C1: a hard-mode facade raises on a transport error, a
soft-mode facade does not. -/
theorem claim_C1_witness :
    (((OpenAI.construct "tk" "" true).post "models" "" (fun _ => none)
        { ok := false, response_text := "", strerror := "boom" }).raised = true) ∧
    (((OpenAI.construct "tk" "" false).post "models" "" (fun _ => none)
        { ok := false, response_text := "", strerror := "boom" }).raised = false) := by
  constructor
  · exact ((claim_C1 (OpenAI.construct "tk" "" true) "models" "" (fun _ => none)
      { ok := false, response_text := "", strerror := "boom" } rfl rfl).1 rfl).1
  · exact (((claim_C1 (OpenAI.construct "tk" "" false) "models" "" (fun _ => none)
      { ok := false, response_text := "", strerror := "boom" } rfl rfl).2 rfl).1)

/-- Claim C4: a response that parses as JSON containing an `error` field
triggers the same configurable policy as a transport failure: `get` and
`post` raise exactly when the facade flag is set, and under the soft setting
they emit a diagnostic instead. -/
theorem claim_C4 (o : OpenAI) (suffix data : String)
    (parse : String → Option Json) (out : CurlOutcome) (j : Json)
    (hok : out.ok = true) (hp : parse out.response_text = some j)
    (he : j.count "error" ≠ 0) :
    ((o.post suffix data parse out).raised = o.throw_exception_ ∧
     (o.get suffix data parse out).raised = o.throw_exception_) ∧
    (o.throw_exception_ = false →
      (o.post suffix data parse out).diagnostics ≠ [] ∧
      (o.get suffix data parse out).diagnostics ≠ []) := by
  have hg : o.get suffix data parse out = o.post suffix data parse out := rfl
  have h := OpenAI.post_ok_json_error o suffix data parse out j hok hp he
  by_cases hb : o.throw_exception_
  · rw [hg]
    rw [if_pos hb] at h
    constructor
    · rw [hb]
      exact ⟨CallOutput.raised_of_error _ _ h.1, CallOutput.raised_of_error _ _ h.1⟩
    · intro hb2
      rw [hb] at hb2
      exact absurd hb2 (by simp)
  · rw [hg]
    rw [if_neg hb] at h
    simp only [Bool.not_eq_true] at hb
    rw [hb]
    refine ⟨⟨CallOutput.not_raised_of_ok _ _ h.1, CallOutput.not_raised_of_ok _ _ h.1⟩, ?_⟩
    intro _
    simp [h.2, hb]

/-- Closed witness for C4: an `error`-field payload raises under the hard
setting and yields a diagnostic under the soft one. -/
theorem claim_C4_witness :
    (((OpenAI.construct "tk" "" true).post "completions" ""
        (fun _ => some (Json.obj [("error", Json.val "bad")]))
        { ok := true, response_text := "resp", strerror := "" }).raised = true ∧
     ((OpenAI.construct "tk" "" true).get "completions" ""
        (fun _ => some (Json.obj [("error", Json.val "bad")]))
        { ok := true, response_text := "resp", strerror := "" }).raised = true) ∧
    ((OpenAI.construct "tk" "" false).post "completions" ""
        (fun _ => some (Json.obj [("error", Json.val "bad")]))
        { ok := true, response_text := "resp", strerror := "" }).diagnostics ≠ [] := by
  constructor
  · exact (claim_C4 (OpenAI.construct "tk" "" true) "completions" ""
      (fun _ => some (Json.obj [("error", Json.val "bad")]))
      { ok := true, response_text := "resp", strerror := "" }
      (Json.obj [("error", Json.val "bad")]) rfl rfl (by decide)).1
  · exact ((claim_C4 (OpenAI.construct "tk" "" false) "completions" ""
      (fun _ => some (Json.obj [("error", Json.val "bad")]))
      { ok := true, response_text := "resp", strerror := "" }
      (Json.obj [("error", Json.val "bad")]) rfl rfl (by decide)).2 rfl).1

/-- Claim C5: when the transport reports no error and the response text is
not valid JSON, `get` and `post` never raise — whatever the error-mode flags
hold — and return the default-constructed (empty) JSON value. -/
theorem claim_C5 (o : OpenAI) (suffix data : String)
    (parse : String → Option Json) (out : CurlOutcome)
    (hok : out.ok = true) (hp : parse out.response_text = none) :
    (o.post suffix data parse out).outcome = .ok Json.null ∧
    (o.get suffix data parse out).outcome = .ok Json.null ∧
    (o.post suffix data parse out).raised = false ∧
    (o.get suffix data parse out).raised = false := by
  have hg : o.get suffix data parse out = o.post suffix data parse out := rfl
  have h := OpenAI.post_ok_not_json o suffix data parse out hok hp
  rw [hg]
  exact ⟨h.1, h.1, CallOutput.not_raised_of_ok _ _ h.1,
    CallOutput.not_raised_of_ok _ _ h.1⟩

/-- Closed witness for C5: a non-JSON body under both error modes yields the
empty JSON without raising. -/
theorem claim_C5_witness :
    ((OpenAI.construct "tk" "" true).post "models" "" (fun _ => none)
      { ok := true, response_text := "<html>", strerror := "" }).outcome =
        .ok Json.null ∧
    ((OpenAI.construct "tk" "" false).get "models" "" (fun _ => none)
      { ok := true, response_text := "<html>", strerror := "" }).raised = false := by
  constructor
  · exact (claim_C5 (OpenAI.construct "tk" "" true) "models" "" (fun _ => none)
      { ok := true, response_text := "<html>", strerror := "" } rfl rfl).1
  · exact (claim_C5 (OpenAI.construct "tk" "" false) "models" "" (fun _ => none)
      { ok := true, response_text := "<html>", strerror := "" } rfl rfl).2.2.2

/-- Claim C9: under the soft error-mode, a response that parses as JSON with
an `error` field is returned whole to the caller — including the `error`
field — rather than an empty result. -/
theorem claim_C9 (o : OpenAI) (suffix data : String)
    (parse : String → Option Json) (out : CurlOutcome) (j : Json)
    (hb : o.throw_exception_ = false)
    (hok : out.ok = true) (hp : parse out.response_text = some j)
    (he : j.count "error" ≠ 0) :
    (o.post suffix data parse out).outcome = .ok j ∧
    (o.get suffix data parse out).outcome = .ok j := by
  have hg : o.get suffix data parse out = o.post suffix data parse out := rfl
  have h := OpenAI.post_ok_json_error o suffix data parse out j hok hp he
  rw [hb] at h
  simp only [Bool.false_eq_true, if_false] at h
  rw [hg]
  exact ⟨h.1, h.1⟩

/-- Closed witness for C9: the soft-mode facade hands back the payload with
its `error` field. -/
theorem claim_C9_witness :
    ((OpenAI.construct "tk" "" false).post "completions" ""
      (fun _ => some (Json.obj [("error", Json.val "bad")]))
      { ok := true, response_text := "resp", strerror := "" }).outcome =
        .ok (Json.obj [("error", Json.val "bad")]) := by
  exact (claim_C9 (OpenAI.construct "tk" "" false) "completions" ""
    (fun _ => some (Json.obj [("error", Json.val "bad")]))
    { ok := true, response_text := "resp", strerror := "" }
    (Json.obj [("error", Json.val "bad")]) rfl rfl rfl (by decide)).1

theorem OpenAI.post_transport_raised (o : OpenAI) (suffix data : String)
    (parse : String → Option Json) (out : CurlOutcome) (hko : out.ok = false) :
    (o.post suffix data parse out).raised
        = (o.session_.throw_exception_ || o.throw_exception_) ∧
    (o.session_.throw_exception_ = false → o.throw_exception_ = false →
      (o.post suffix data parse out).diagnostics ≠ []) := by
  cases hs : o.session_.throw_exception_
  · cases hb : o.throw_exception_
    · have h := OpenAI.post_transport_error_soft_soft o suffix data parse out hko hs hb
      exact ⟨by simpa using h.1, fun _ _ => List.ne_nil_of_mem h.2⟩
    · have h := OpenAI.post_transport_error_soft_hard o suffix data parse out hko hs hb
      exact ⟨by simpa using CallOutput.raised_of_error _ _ h.1,
        fun _ hb2 => absurd hb2 (by simp)⟩
  · have h := OpenAI.post_transport_error_hard_session o suffix data parse out hko hs
    exact ⟨by simp [CallOutput.raised_of_error _ _ h.1],
      fun hs2 _ => absurd hs2 (by simp)⟩

theorem OpenAI.post_api_error_raised (o : OpenAI) (suffix data : String)
    (parse : String → Option Json) (out : CurlOutcome) (j : Json)
    (hok : out.ok = true) (hp : parse out.response_text = some j)
    (he : j.count "error" ≠ 0) :
    (o.post suffix data parse out).raised = o.throw_exception_ ∧
    (o.throw_exception_ = false → (o.post suffix data parse out).diagnostics ≠ []) := by
  have h := OpenAI.post_ok_json_error o suffix data parse out j hok hp he
  cases hb : o.throw_exception_
  · rw [hb] at h
    simp only [Bool.false_eq_true, if_false] at h
    exact ⟨CallOutput.not_raised_of_ok _ _ h.1, fun _ => by simp [h.2]⟩
  · rw [hb] at h
    simp at h
    exact ⟨CallOutput.raised_of_error _ _ h.1, fun hb2 => absurd hb2 (by simp)⟩

/-- Counterexample to claim C2 as stated: a facade constructed with
throw-mode on and then switched off with `set_throw_exception false` still
raises on a transport error, because `Session` keeps the flag it was
constructed with and `set_throw_exception` only changes the facade copy. -/
theorem claim_C2_counterexample :
    ((OpenAI.construct "tk" "" true).set_throw_exception false).throw_exception_
      = false ∧
    (((OpenAI.construct "tk" "" true).set_throw_exception false).post
        "completions" "" (fun _ => none)
        { ok := false, response_text := "", strerror := "boom" }).raised = true := by
  exact ⟨rfl, rfl⟩

/-- Claim C2 amended: after `set_throw_exception b`, API-level errors follow
`b` on every subsequent `get`/`post` call, but a transport-level error first
passes through the session flag fixed at construction: with construction flag
`b0`, a transport error raises exactly when `b0 || b`, and continues with a
diagnostic only when both flags are off. -/
theorem claim_C2_amended (tok org suffix data : String) (b0 b : Bool)
    (parse : String → Option Json) (out : CurlOutcome) :
    (out.ok = false →
      ((((OpenAI.construct tok org b0).set_throw_exception b).post suffix data
          parse out).raised = (b0 || b) ∧
       (((OpenAI.construct tok org b0).set_throw_exception b).get suffix data
          parse out).raised = (b0 || b) ∧
       (b0 = false → b = false →
         (((OpenAI.construct tok org b0).set_throw_exception b).post suffix data
            parse out).diagnostics ≠ []))) ∧
    (∀ j : Json, out.ok = true → parse out.response_text = some j →
      j.count "error" ≠ 0 →
      ((((OpenAI.construct tok org b0).set_throw_exception b).post suffix data
          parse out).raised = b ∧
       (((OpenAI.construct tok org b0).set_throw_exception b).get suffix data
          parse out).raised = b ∧
       (b = false →
         (((OpenAI.construct tok org b0).set_throw_exception b).post suffix data
            parse out).diagnostics ≠ []))) := by
  have hg : ((OpenAI.construct tok org b0).set_throw_exception b).get suffix data
      parse out =
      ((OpenAI.construct tok org b0).set_throw_exception b).post suffix data
      parse out := rfl
  have hs : ((OpenAI.construct tok org b0).set_throw_exception b).session_.throw_exception_
      = b0 := rfl
  have hbf : ((OpenAI.construct tok org b0).set_throw_exception b).throw_exception_
      = b := rfl
  constructor
  · intro hko
    have h := OpenAI.post_transport_raised
      ((OpenAI.construct tok org b0).set_throw_exception b) suffix data parse out hko
    rw [hs, hbf] at h
    exact ⟨h.1, by rw [hg]; exact h.1, h.2⟩
  · intro j hok hp he
    have h := OpenAI.post_api_error_raised
      ((OpenAI.construct tok org b0).set_throw_exception b) suffix data parse out
      j hok hp he
    rw [hbf] at h
    exact ⟨h.1, by rw [hg]; exact h.1, h.2⟩

/-- Closed witness for the amended C2: a soft-constructed facade switched to
hard raises on a transport error, and a hard-constructed facade switched to
soft continues through an API-level error payload. -/
theorem claim_C2_amended_witness :
    (((OpenAI.construct "tk" "" false).set_throw_exception true).post "models" ""
        (fun _ => none)
        { ok := false, response_text := "", strerror := "boom" }).raised
      = (false || true) ∧
    (((OpenAI.construct "tk" "" true).set_throw_exception false).post
        "completions" "" (fun _ => some (Json.obj [("error", Json.val "bad")]))
        { ok := true, response_text := "resp", strerror := "" }).raised = false := by
  constructor
  · exact ((claim_C2_amended "tk" "" "models" "" false true (fun _ => none)
      { ok := false, response_text := "", strerror := "boom" }).1 rfl).1
  · exact ((claim_C2_amended "tk" "" "completions" "" true false
      (fun _ => some (Json.obj [("error", Json.val "bad")]))
      { ok := true, response_text := "resp", strerror := "" }).2
      (Json.obj [("error", Json.val "bad")]) rfl rfl (by decide)).1
